import Mathlib

/-!
Shallow embedding of the `webhook-dispatcher` service (files
`src/apps/webhook-dispatcher/src/dispatcher.rs` and
`src/apps/webhook-dispatcher/src/consumer.rs`) together with theorems
settling the specification claims about it.

External effects (the secret store, DNS, the HTTP send, the audit-log
insert, the broker stream) are supplied through explicit environment
values; the control flow acting on those results is translated directly
from the Rust source.
-/

namespace Firecrawl

/-! ### IP addresses and the SSRF exclusion set (dispatcher.rs lines 22-35) -/

/-- An IPv4 address as four octets, as in `std::net::Ipv4Addr`. -/
structure Ipv4Addr where
  a : Nat
  b : Nat
  c : Nat
  d : Nat
deriving DecidableEq, Repr

/-- An IPv6 address as eight 16-bit segments, as in `std::net::Ipv6Addr`. -/
structure Ipv6Addr where
  s0 : Nat
  s1 : Nat
  s2 : Nat
  s3 : Nat
  s4 : Nat
  s5 : Nat
  s6 : Nat
  s7 : Nat
deriving DecidableEq, Repr

/-- `std::net::IpAddr`. -/
inductive IpAddr where
  | V4 (ip : Ipv4Addr)
  | V6 (ip : Ipv6Addr)
deriving DecidableEq, Repr

/-- `Ipv4Addr::is_private`: 10.0.0.0/8, 172.16.0.0/12, 192.168.0.0/16. -/
def Ipv4Addr.is_private (ip : Ipv4Addr) : Bool :=
  ip.a == 10 || (ip.a == 172 && decide (16 ≤ ip.b ∧ ip.b ≤ 31)) ||
    (ip.a == 192 && ip.b == 168)

/-- `Ipv4Addr::is_loopback`: 127.0.0.0/8. -/
def Ipv4Addr.is_loopback (ip : Ipv4Addr) : Bool :=
  ip.a == 127

/-- `Ipv4Addr::is_link_local`: 169.254.0.0/16. -/
def Ipv4Addr.is_link_local (ip : Ipv4Addr) : Bool :=
  ip.a == 169 && ip.b == 254

/-- `Ipv4Addr::is_unspecified`: 0.0.0.0. -/
def Ipv4Addr.is_unspecified (ip : Ipv4Addr) : Bool :=
  ip.a == 0 && ip.b == 0 && ip.c == 0 && ip.d == 0

/-- `Ipv4Addr::is_documentation`: 192.0.2.0/24, 198.51.100.0/24, 203.0.113.0/24. -/
def Ipv4Addr.is_documentation (ip : Ipv4Addr) : Bool :=
  (ip.a == 192 && ip.b == 0 && ip.c == 2) ||
    (ip.a == 198 && ip.b == 51 && ip.c == 100) ||
    (ip.a == 203 && ip.b == 0 && ip.c == 113)

/-- `Ipv6Addr::is_loopback`: `::1`. -/
def Ipv6Addr.is_loopback (ip : Ipv6Addr) : Bool :=
  ip.s0 == 0 && ip.s1 == 0 && ip.s2 == 0 && ip.s3 == 0 &&
    ip.s4 == 0 && ip.s5 == 0 && ip.s6 == 0 && ip.s7 == 1

/-- `Ipv6Addr::is_unspecified`: `::`. -/
def Ipv6Addr.is_unspecified (ip : Ipv6Addr) : Bool :=
  ip.s0 == 0 && ip.s1 == 0 && ip.s2 == 0 && ip.s3 == 0 &&
    ip.s4 == 0 && ip.s5 == 0 && ip.s6 == 0 && ip.s7 == 0

/-- `Ipv6Addr::is_unique_local`: fc00::/7. -/
def Ipv6Addr.is_unique_local (ip : Ipv6Addr) : Bool :=
  (ip.s0 &&& 0xfe00) == 0xfc00

/-- `Ipv6Addr::is_multicast`: ff00::/8. -/
def Ipv6Addr.is_multicast (ip : Ipv6Addr) : Bool :=
  (ip.s0 &&& 0xff00) == 0xff00

/-- dispatcher.rs lines 22-35: the SSRF exclusion predicate `is_private_ip`. -/
def is_private_ip (ip : IpAddr) : Bool :=
  match ip with
  | .V4 ip =>
      ip.is_private || ip.is_loopback || ip.is_link_local ||
        ip.is_unspecified || ip.is_documentation
  | .V6 ip =>
      ip.is_loopback || ip.is_unspecified || ip.is_unique_local || ip.is_multicast

/-- A resolved socket address (`std::net::SocketAddr`): ip plus port. -/
structure SockAddr where
  ip : IpAddr
  port : Nat
deriving DecidableEq, Repr

/-! ### Queue message and outcome types -/

/-- Modelled from the spec: `WebhookQueueMessage` lives in the repository's
`models.rs`, which is not under `src/`; its fields are taken from spec section 3
and from the uses in `consumer.rs` and `dispatcher.rs`. `payloadJson` stands for
the JSON serialization of the `payload` field (serialization of a JSON tree
value is infallible). -/
structure WebhookQueueMessage where
  job_id : String
  team_id : String
  scrape_id : Option String
  webhook_url : String
  event : String
  payloadJson : String
  headers : List (String × String)
  timeout_ms : Nat
  retry_count : Nat
deriving DecidableEq, Repr

/-- dispatcher.rs lines 16-20: the tri-state outcome of one dispatch. -/
inductive DispatchResult where
  | Success
  | FatalError
  | RetryableError
deriving DecidableEq, Repr

/-- Modelled from the spec: `sign_payload` lives in the repository's
`signature.rs`, which is not under `src/`; the spec says only that it is a pure
HMAC-style signature of the payload given the secret, so any fixed pure
function of `(secret, payload)` represents it. -/
def sign_payload (secret payload : String) : String :=
  toString ((secret ++ payload).foldl (fun h c => (h * 31 + c.toNat) % 1000000007) 7)

/-! ### Header construction (dispatcher.rs lines 129-146)

`http::HeaderMap` keys are case-insensitive; `HeaderName::try_from` accepts
non-empty RFC 7230 token strings and normalizes ASCII uppercase to lowercase,
and `HeaderValue::try_from` accepts strings of tab or bytes in 32..=255 other
than 127. `HeaderMap::insert` replaces the value of an existing entry of the
same name. -/

/-- RFC 7230 token characters, as accepted by `http::HeaderName`:
alphanumerics and the fifteen symbols with the listed code points. -/
def isTokenChar (c : Char) : Bool :=
  c.isAlphanum || c.toNat == 33 || decide (35 ≤ c.toNat ∧ c.toNat ≤ 39) ||
    c.toNat == 42 || c.toNat == 43 || c.toNat == 45 || c.toNat == 46 ||
    c.toNat == 94 || c.toNat == 95 || c.toNat == 96 || c.toNat == 124 ||
    c.toNat == 126

/-- `http::HeaderName::try_from` on a string: `some` of its lowercase
normalization when the string is a non-empty token, `none` otherwise. -/
def normalizeHeaderName (s : String) : Option String :=
  if s.isEmpty then none
  else if s.toList.all isTokenChar then some ⟨s.data.map Char.toLower⟩ else none

/-- A character acceptable inside an `http::HeaderValue`. -/
def isValidHeaderValueChar (c : Char) : Bool :=
  c.toNat == 9 || (decide (32 ≤ c.toNat) && c.toNat != 127)

/-- `http::HeaderValue::try_from` succeeds on the string. -/
def validHeaderValue (s : String) : Bool :=
  s.toList.all isValidHeaderValueChar

/-- `HeaderMap::insert`: replace the entry with this name, or append one. -/
def insertHeader : List (String × String) → String → String → List (String × String)
  | [], n, v => [(n, v)]
  | (k, w) :: rest, n, v =>
      if k == n then (k, v) :: rest else (k, w) :: insertHeader rest n v

/-- Lookup of a header by (already lowercased) name. -/
def lookupHeader : List (String × String) → String → Option String
  | [], _ => none
  | (k, w) :: rest, n => if k == n then some w else lookupHeader rest n

/-- dispatcher.rs lines 133-140: apply one caller-supplied header, skipping it
unless both the name and the value are representable. -/
def applyCallerHeader (m : List (String × String)) (kv : String × String) :
    List (String × String) :=
  match normalizeHeaderName kv.1 with
  | some n => if validHeaderValue kv.2 then insertHeader m n kv.2 else m
  | none => m

/-- dispatcher.rs lines 130-146: the request header map — `Content-Type:
application/json` first, then each valid caller-supplied header in order, then
(when a signature string is present and is a valid header value) the
`X-Firecrawl-Signature` header. -/
def buildHeaders (caller : List (String × String)) (sig : Option String) :
    List (String × String) :=
  let m := insertHeader [] "content-type" "application/json"
  let m := caller.foldl applyCallerHeader m
  match sig with
  | some s =>
      if validHeaderValue s then insertHeader m "x-firecrawl-signature" s else m
  | none => m

/-! ### URLs and the external-effect environment of `dispatch` -/

/-- The outcome of `url::Url::parse(webhook_url)` as far as `dispatch` uses
it: the scheme, `host_str()` and the explicit `port()`. -/
structure UrlParts where
  scheme : String
  host : Option String
  port : Option Nat
deriving DecidableEq, Repr

/-- The url crate's well-known scheme ports, as used by
`Url::port_or_known_default`: http 80, https 443, ws 80, wss 443, ftp 21. -/
def knownDefaultPort (scheme : String) : Option Nat :=
  if scheme == "http" then some 80
  else if scheme == "https" then some 443
  else if scheme == "ws" then some 80
  else if scheme == "wss" then some 443
  else if scheme == "ftp" then some 21
  else none

/-- `Url::port_or_known_default`: the explicit port if any, otherwise the
scheme's well-known port. -/
def UrlParts.port_or_known_default (u : UrlParts) : Option Nat :=
  u.port <|> knownDefaultPort u.scheme

/-- The body of a successful-status response from the secret store, as consumed
by `fetch_hmac_secret` (dispatcher.rs line 70): reading the text can fail, the
text can fail to parse as JSON, or it parses and `hmac_secret` is extracted as
an optional string. -/
inductive StoreBody where
  | textErr
  | notJson
  | json (hmac_secret : Option String)
deriving DecidableEq, Repr

/-- The outcome of the postgrest `execute()` call for the secret lookup:
a transport-level error, or a response with a status and a body. -/
inductive StoreResp where
  | transportErr
  | resp (status : Nat) (body : StoreBody)
deriving DecidableEq, Repr

/-- The outcome of the postgrest `execute()` call for the audit-log insert
(dispatcher.rs lines 223-228); the body only feeds a log line. -/
inductive AuditResp where
  | transportErr
  | resp (status : Nat)
deriving DecidableEq, Repr

/-- The outcome of `client.post(..).send()`: a response with a status code, or
a transport error carrying an optional status. -/
inductive SendOutcome where
  | response (status : Nat)
  | transportErr (status : Option Nat)
deriving DecidableEq, Repr

/-- Errors that `dispatch` propagates as `Err` (the `?` operators in
dispatcher.rs): a transport error of the secret lookup, a text/JSON failure of
the secret response body, a client-build failure, and a transport error of the
audit-log insert. -/
inductive DispatchErr where
  | secretTransportErr
  | secretBodyErr
  | clientBuildErr
  | auditErr
deriving DecidableEq, Repr

/-- The external world of one `dispatch` call. -/
structure DispatchEnv where
  secret : StoreResp
  urlParse : Option UrlParts
  dns : Option (List SockAddr)
  clientBuildOk : Bool
  send : SendOutcome
  audit : AuditResp
deriving DecidableEq, Repr

/-- Observable effects of one `dispatch` call: the `(host, port)` pair given to
`lookup_host`, the pinned address an HTTP request was issued to, and the header
map of that request. -/
structure DispatchTrace where
  dnsQuery : Option (String × Nat)
  httpTarget : Option SockAddr
  sentHeaders : Option (List (String × String))
deriving DecidableEq, Repr

/-- The trace before any effect is performed. -/
def emptyTrace : DispatchTrace := ⟨none, none, none⟩

/-! ### The Dispatcher -/

/-- dispatcher.rs lines 49-75, `fetch_hmac_secret`: a transport error
propagates (`context(..)?`); a non-success status is logged and yields
`Ok(None)`; on a success status the body text is read (`?`) and parsed as JSON
(`?`), and the `hmac_secret` field is extracted as an optional string. -/
def fetch_hmac_secret : StoreResp → Except DispatchErr (Option String)
  | .transportErr => .error .secretTransportErr
  | .resp status body =>
      if 200 ≤ status ∧ status ≤ 299 then
        match body with
        | .textErr => .error .secretBodyErr
        | .notJson => .error .secretBodyErr
        | .json f => .ok f
      else .ok none

/-- dispatcher.rs lines 205-242, `log_webhook`, as it affects the caller: the
insert's transport error propagates through the caller's `?`; any received
response, success status or not, is at most logged and the caller's value
passes through. -/
def logThen (a : AuditResp) (r : Except DispatchErr DispatchResult) :
    Except DispatchErr DispatchResult :=
  match a with
  | .transportErr => .error .auditErr
  | .resp _ => r

/-- dispatcher.rs lines 180-183: classification of a non-2xx response status —
429, 408 and 5xx are retryable, anything else is fatal. -/
def classify_non2xx (s : Nat) : DispatchResult :=
  if s = 429 ∨ s = 408 ∨ (500 ≤ s ∧ s ≤ 599) then .RetryableError else .FatalError

/-- dispatcher.rs lines 113-193, from SSRF filtering onward: pick the first
resolved candidate that is not excluded by `is_private_ip` (none → log and
`FatalError`); build the pinned client (failure → `Err`); build the headers;
send; classify the response (2xx → `Success`, otherwise `classify_non2xx`) or
a transport failure as `RetryableError`; each terminal path writes one audit
record whose transport failure propagates. -/
def dispatch_resolved (msg : WebhookQueueMessage) (env : DispatchEnv)
    (sec : Option String) (host : String) (port : Nat) (addrs : List SockAddr) :
    Except DispatchErr DispatchResult × DispatchTrace :=
  let tr1 : DispatchTrace := ⟨some (host, port), none, none⟩
  match addrs.find? (fun a => !(is_private_ip a.ip)) with
  | none => (logThen env.audit (.ok .FatalError), tr1)
  | some target =>
      if env.clientBuildOk then
        let hdrs := buildHeaders msg.headers
          (sec.map (fun s => sign_payload s msg.payloadJson))
        let tr2 : DispatchTrace := ⟨some (host, port), some target, some hdrs⟩
        (match env.send with
         | .response s =>
             if 200 ≤ s ∧ s ≤ 299 then logThen env.audit (.ok .Success)
             else logThen env.audit (.ok (classify_non2xx s))
         | .transportErr _ => logThen env.audit (.ok .RetryableError), tr2)
      else (.error .clientBuildErr, tr1)

/-- dispatcher.rs lines 101-121: `lookup_host((host,
url.port_or_known_default().unwrap_or(80)))` — a resolution failure is logged,
audited and yields `FatalError`; otherwise continue with the candidates. -/
def dispatch_with_host (msg : WebhookQueueMessage) (env : DispatchEnv)
    (sec : Option String) (u : UrlParts) (host : String) :
    Except DispatchErr DispatchResult × DispatchTrace :=
  let port := u.port_or_known_default.getD 80
  match env.dns with
  | none => (logThen env.audit (.ok .FatalError), ⟨some (host, port), none, none⟩)
  | some addrs => dispatch_resolved msg env sec host port addrs

/-- dispatcher.rs lines 78-194, `dispatch`: fetch the HMAC secret (its `Err`
propagates), parse the URL (failure → audited `FatalError`), require a host
(missing → audited `FatalError`), then resolve and deliver. -/
def dispatch (msg : WebhookQueueMessage) (env : DispatchEnv) :
    Except DispatchErr DispatchResult × DispatchTrace :=
  match fetch_hmac_secret env.secret with
  | .error e => (.error e, emptyTrace)
  | .ok sec =>
      match env.urlParse with
      | none => (logThen env.audit (.ok .FatalError), emptyTrace)
      | some u =>
          match u.host with
          | none => (logThen env.audit (.ok .FatalError), emptyTrace)
          | some host => dispatch_with_host msg env sec u host

/-- The total status classification of dispatcher.rs lines 157-184: 2xx →
`Success`, else 429/408/5xx → `RetryableError`, else `FatalError`. -/
def classify_status (s : Nat) : DispatchResult :=
  if 200 ≤ s ∧ s ≤ 299 then .Success else classify_non2xx s

/-! ### The Consumer (consumer.rs) -/

/-- Errors propagated out of `process_message` via `?`: a `dispatch` error, or
a failure of `basic_publish` to the retry queue. -/
inductive ProcErr where
  | dispatchErr (e : DispatchErr)
  | publishErr
deriving DecidableEq, Repr

/-- consumer.rs lines 160-209, `process_message`: an undeserializable body is
logged and yields `Ok` with nothing published; otherwise dispatch (its error
propagates); `Success`/`FatalError` → `Ok`; `RetryableError` with
`retry_count < max_retries` → publish exactly one copy with `retry_count`
incremented by 1 (a publish failure propagates as an error, publishing
nothing); retries exhausted → log and `Ok`. The second component is the list
of messages placed on the retry queue. -/
def process_message (deser : Option WebhookQueueMessage) (env : DispatchEnv)
    (publishOk : Bool) (max_retries : Nat) :
    Except ProcErr Unit × List WebhookQueueMessage :=
  match deser with
  | none => (.ok (), [])
  | some message =>
      match (dispatch message env).1 with
      | .error e => (.error (.dispatchErr e), [])
      | .ok r =>
          match r with
          | .Success => (.ok (), [])
          | .FatalError => (.ok (), [])
          | .RetryableError =>
              if message.retry_count < max_retries then
                let m := { message with retry_count := message.retry_count + 1 }
                if publishOk then (.ok (), [m]) else (.error .publishErr, [])
              else (.ok (), [])

/-- What the consumer does with the delivery handle of a finished task. -/
inductive AckAction where
  | ack
  | nackRequeue
  | noAction
deriving DecidableEq, Repr

/-- The joined result of one spawned task: the task panicked (`JoinError`), or
it completed with `process_message`'s result. -/
inductive JoinedResult where
  | panicked
  | completed (r : Except ProcErr Unit)
deriving Repr

/-- Errors that end one `run_inner` attempt. -/
inductive ConsumerErr where
  | connectErr
  | brokerErr
deriving DecidableEq, Repr

/-- consumer.rs lines 137-158, `handle_result`: `Ok(_, Ok(_))` → positive ack
(an ack failure is only logged); `Ok(_, Err(_))` → negative ack with requeue; a
`JoinError` (panicked task) → only logged, no disposition. Every branch falls
through to `Ok(())`. -/
def handle_result : JoinedResult → AckAction × Except ConsumerErr Unit
  | .panicked => (.noAction, .ok ())
  | .completed (.ok _) => (.ack, .ok ())
  | .completed (.error _) => (.nackRequeue, .ok ())

/-- One event observed by the `tokio::select!` multiplexer of consumer.rs
lines 101-128: the shutdown broadcast, a task joining, a delivery (already
deserialized or not by `process_message` later — the body is irrelevant to the
loop itself), a broker stream error, or the stream ending. -/
inductive ConsumerEvent where
  | shutdown
  | taskDone (j : JoinedResult)
  | newDelivery
  | streamErr
  | streamEnd
deriving Repr

/-- The pool-size effect of one non-exiting event: `join_next` (polled only
while the pool is non-empty) removes a task; a new delivery (accepted only
while `tasks.len() < max_concurrent`) spawns one. -/
def step_pool (max pool : Nat) : ConsumerEvent → Nat
  | .taskDone _ => if pool = 0 then pool else pool - 1
  | .newDelivery => if pool < max then pool + 1 else pool
  | _ => pool

/-- How the select loop of consumer.rs lines 101-128 exits. -/
inductive LoopExit where
  | shutdownBreak (pool : Nat)
  | streamEndBreak (pool : Nat)
  | errReturn (pool : Nat)
  | outOfEvents (pool : Nat)
deriving DecidableEq, Repr

/-- The select loop over a finite event script: shutdown breaks; a stream
error returns `Err` and the stream ending breaks, both observable only while
the delivery branch is enabled (`tasks.len() < max_concurrent`); task
completions and accepted deliveries update the pool via `step_pool`. An event
whose guard is disabled is not consumed by its branch and leaves the state
unchanged. -/
def consumer_loop (max : Nat) : List ConsumerEvent → Nat → LoopExit
  | [], pool => .outOfEvents pool
  | e :: rest, pool =>
      match e with
      | .shutdown => .shutdownBreak pool
      | .streamErr =>
          if pool < max then .errReturn pool else consumer_loop max rest pool
      | .streamEnd =>
          if pool < max then .streamEndBreak pool else consumer_loop max rest pool
      | .taskDone j => consumer_loop max rest (step_pool max pool (.taskDone j))
      | .newDelivery => consumer_loop max rest (step_pool max pool .newDelivery)

/-- The successive pool sizes seen at the head of each loop iteration, ending
at the iteration where the loop exits (or the script runs out). -/
def pool_trace (max : Nat) : List ConsumerEvent → Nat → List Nat
  | [], pool => [pool]
  | e :: rest, pool =>
      match e with
      | .shutdown => [pool]
      | .streamErr => if pool < max then [pool] else pool :: pool_trace max rest pool
      | .streamEnd => if pool < max then [pool] else pool :: pool_trace max rest pool
      | .taskDone j => pool :: pool_trace max rest (step_pool max pool (.taskDone j))
      | .newDelivery => pool :: pool_trace max rest (step_pool max pool .newDelivery)

/-- consumer.rs lines 130-132: after the loop breaks, every remaining task is
joined and handled in turn, each `handle_result` feeding the `?`. -/
def drain_results (rs : List JoinedResult) : Except ConsumerErr Unit :=
  rs.foldl
    (fun acc r =>
      match acc with
      | .error e => .error e
      | .ok _ => (handle_result r).2)
    (Except.ok ())

/-- consumer.rs lines 33-135, `run_inner`: connection/declare failures return
`Err`; then the select loop runs — a stream `Err` returns `Err`, shutdown or
the stream ending break out and the in-flight tasks are drained before
returning `Ok`. `none` means the finite event script ended with the loop still
waiting. -/
def run_inner (connectOk : Bool) (max : Nat) (events : List ConsumerEvent)
    (pending : List JoinedResult) : Option (Except ConsumerErr Unit) :=
  if connectOk then
    match consumer_loop max events 0 with
    | .shutdownBreak _ => some (drain_results pending)
    | .streamEndBreak _ => some (drain_results pending)
    | .errReturn _ => some (.error .brokerErr)
    | .outOfEvents _ => none
  else some (.error .connectErr)

/-- How the supervisor `run` terminates. -/
inductive RunExit where
  | cleanExit
  | shutdownExit
deriving DecidableEq, Repr

/-- consumer.rs lines 18-31, `run`: each entry of the script is one
`run_inner` attempt's result paired with whether the shutdown broadcast is
pending at that point. An `Ok` returns immediately (clean exit); an `Err` with
shutdown pending returns; otherwise sleep 5s and reconnect. The returned `Nat`
counts the reconnections taken before exiting. -/
def run : List (Except ConsumerErr Unit × Bool) → Option (RunExit × Nat)
  | [] => none
  | (res, sd) :: rest =>
      match res with
      | .ok _ => some (.cleanExit, 0)
      | .error _ =>
          if sd then some (.shutdownExit, 0)
          else (run rest).map (fun p => (p.1, p.2 + 1))

/-! ### Concrete sample values used by witnesses and counterexamples -/

/-- A public (non-excluded) resolved address. -/
def pubAddr : SockAddr := ⟨.V4 ⟨93, 184, 216, 34⟩, 80⟩

/-- An address in the 10.0.0.0/8 private range. -/
def privAddr : SockAddr := ⟨.V4 ⟨10, 0, 0, 5⟩, 80⟩

/-- The IPv4 loopback address. -/
def loopbackAddr : SockAddr := ⟨.V4 ⟨127, 0, 0, 1⟩, 80⟩

/-- A sample queue message. -/
def sampleMsg : WebhookQueueMessage :=
  ⟨"job-1", "team-1", none, "http://example.com/hook", "crawl.completed",
    "null", [], 30000, 0⟩

/-- Parse result of `http://example.com/hook`: no explicit port. -/
def httpUrl : UrlParts := ⟨"http", some "example.com", none⟩

/-- Parse result of `https://example.com/hook`: no explicit port. -/
def httpsUrl : UrlParts := ⟨"https", some "example.com", none⟩

/-- Every resolved candidate is excluded. -/
def envBlocked : DispatchEnv :=
  ⟨.resp 200 (.json none), some httpUrl, some [privAddr, loopbackAddr], true,
    .response 200, .resp 201⟩

/-- A private candidate first, then a public one; the endpoint answers 503. -/
def envMixed : DispatchEnv :=
  ⟨.resp 200 (.json none), some httpUrl, some [privAddr, pubAddr], true,
    .response 503, .resp 201⟩

/-- A plain successful delivery. -/
def envOk200 : DispatchEnv :=
  ⟨.resp 200 (.json none), some httpUrl, some [pubAddr], true,
    .response 200, .resp 201⟩

/-- Same as `envOk200` but the audit-log insert fails at transport level. -/
def envAuditDead : DispatchEnv :=
  ⟨.resp 200 (.json none), some httpUrl, some [pubAddr], true,
    .response 200, .transportErr⟩

/-- The secret store answers 200 with a body that is not valid JSON. -/
def envSecretMalformed : DispatchEnv :=
  ⟨.resp 200 .notJson, some httpUrl, some [pubAddr], true,
    .response 200, .resp 201⟩

/-- The secret store answers 406 (non-success). -/
def envSecret406 : DispatchEnv :=
  ⟨.resp 406 .textErr, some httpUrl, some [pubAddr], true,
    .response 200, .resp 201⟩

/-- An https URL with no explicit port. -/
def envHttpsNoPort : DispatchEnv :=
  ⟨.resp 200 (.json none), some httpsUrl, some [pubAddr], true,
    .response 200, .resp 201⟩

/-! ### Helper lemmas about the header map -/

theorem lookupHeader_insertHeader_self (m : List (String × String)) (n v : String) :
    lookupHeader (insertHeader m n v) n = some v := by
  induction m with
  | nil => simp [insertHeader, lookupHeader]
  | cons kv rest ih =>
      obtain ⟨k, w⟩ := kv
      by_cases h : (k == n) = true
      · simp [insertHeader, h, lookupHeader]
      · simp [insertHeader, h, lookupHeader, ih]

theorem lookupHeader_insertHeader_ne (m : List (String × String)) (n nn v : String)
    (h : ¬ nn = n) : lookupHeader (insertHeader m nn v) n = lookupHeader m n := by
  induction m with
  | nil => simp [insertHeader, lookupHeader, beq_iff_eq, h]
  | cons kv rest ih =>
      obtain ⟨k, w⟩ := kv
      by_cases hk : (k == nn) = true
      · have hkn : k = nn := by simpa [beq_iff_eq] using hk
        subst hkn
        simp [insertHeader, lookupHeader, beq_iff_eq, h]
      · by_cases hn : (k == n) = true
        · simp [insertHeader, hk, lookupHeader, hn]
        · simp [insertHeader, hk, lookupHeader, hn, ih]

/-- Claim C9: request headers are applied in the order `Content-Type:
application/json`, then each valid caller-supplied header, then the signature
header; since `HeaderMap::insert` replaces an existing entry of the same name,
a valid caller-supplied `content-type` header overrides `application/json`,
and when a signing secret exists the computed `X-Firecrawl-Signature` header
overrides any caller-supplied header of that name. -/
theorem c9_header_order :
    (lookupHeader (buildHeaders [] none) "content-type" = some "application/json")
    ∧ (∀ pre k v sig, normalizeHeaderName k = some "content-type" →
        validHeaderValue v = true →
        lookupHeader (buildHeaders (pre ++ [(k, v)]) sig) "content-type" = some v)
    ∧ (∀ caller s, validHeaderValue s = true →
        lookupHeader (buildHeaders caller (some s)) "x-firecrawl-signature" = some s) := by
  refine ⟨by simp [buildHeaders, insertHeader, lookupHeader], ?_, ?_⟩
  · intro pre k v sig hk hv
    simp only [buildHeaders, List.foldl_append, List.foldl_cons, List.foldl_nil]
    rw [show applyCallerHeader
          (List.foldl applyCallerHeader (insertHeader [] "content-type" "application/json") pre)
          (k, v) =
        insertHeader
          (List.foldl applyCallerHeader (insertHeader [] "content-type" "application/json") pre)
          "content-type" v from by simp [applyCallerHeader, hk, hv]]
    cases sig with
    | none => exact lookupHeader_insertHeader_self _ _ _
    | some s =>
        by_cases hs : validHeaderValue s = true
        · simp only [hs, if_true]
          rw [lookupHeader_insertHeader_ne _ _ _ _ (by decide)]
          exact lookupHeader_insertHeader_self _ _ _
        · simp only [hs, if_false]
          exact lookupHeader_insertHeader_self _ _ _
  · intro caller s hs
    simp only [buildHeaders, hs, if_true]
    exact lookupHeader_insertHeader_self _ _ _

/-- Witness for C9 at concrete inputs: a caller-supplied `Content-Type:
text/plain` overrides the default, and the computed signature overrides a
caller-supplied (forged) signature header. -/
theorem c9_header_order_witness :
    (normalizeHeaderName "Content-Type" = some "content-type")
    ∧ (validHeaderValue "text/plain" = true)
    ∧ (validHeaderValue "sig-abc" = true)
    ∧ lookupHeader
        (buildHeaders ([("X-Custom", "1")] ++ [("Content-Type", "text/plain")])
          (some "sig-abc")) "content-type" = some "text/plain"
    ∧ lookupHeader
        (buildHeaders [("x-firecrawl-signature", "forged")] (some "sig-abc"))
        "x-firecrawl-signature" = some "sig-abc" :=
  ⟨by decide, by decide, by decide,
    c9_header_order.2.1 [("X-Custom", "1")] "Content-Type" "text/plain"
      (some "sig-abc") (by decide) (by decide),
    c9_header_order.2.2 [("x-firecrawl-signature", "forged")] "sig-abc" (by decide)⟩

/-- Claim C2: for every HTTP response received by the Dispatcher the
status-to-outcome classification is total and exact — a 2xx status yields
`Success`; 429, 408 or 5xx yields `RetryableError`; every other non-2xx status
yields `FatalError` — and `dispatch` returns exactly this classification on a
received response. -/
theorem c2_status_to_outcome (msg : WebhookQueueMessage) (env : DispatchEnv)
    (sec : Option String) (u : UrlParts) (host : String) (addrs : List SockAddr)
    (target : SockAddr) (s : Nat) (st : Nat)
    (hsec : fetch_hmac_secret env.secret = .ok sec)
    (hurl : env.urlParse = some u) (hhost : u.host = some host)
    (hdns : env.dns = some addrs)
    (hfind : addrs.find? (fun a => !(is_private_ip a.ip)) = some target)
    (hbuild : env.clientBuildOk = true)
    (hsend : env.send = .response s)
    (haud : env.audit = .resp st) :
    (dispatch msg env).1 = .ok (classify_status s)
    ∧ (classify_status s = .Success ↔ (200 ≤ s ∧ s ≤ 299))
    ∧ (classify_status s = .RetryableError ↔
        (s = 429 ∨ s = 408 ∨ (500 ≤ s ∧ s ≤ 599)))
    ∧ (classify_status s = .FatalError ↔
        (¬(200 ≤ s ∧ s ≤ 299) ∧ ¬(s = 429 ∨ s = 408 ∨ (500 ≤ s ∧ s ≤ 599)))) := by
  have hmap : (dispatch msg env).1 = .ok (classify_status s) := by
    simp only [dispatch, hsec, hurl, hhost, dispatch_with_host, hdns,
      dispatch_resolved, hfind, hbuild, hsend, haud, logThen, if_true,
      classify_status]
    by_cases h2 : 200 ≤ s ∧ s ≤ 299
    · simp [h2]
    · simp [h2]
  refine ⟨hmap, ?_, ?_, ?_⟩
  all_goals by_cases h2 : 200 ≤ s ∧ s ≤ 299
  all_goals by_cases hr : s = 429 ∨ s = 408 ∨ (500 ≤ s ∧ s ≤ 599)
  all_goals simp [classify_status, classify_non2xx, h2, hr]
  all_goals omega

/-- Witness for C2: on a concrete environment whose endpoint answers 503,
`dispatch` returns `RetryableError`. -/
theorem c2_status_to_outcome_witness :
    (fetch_hmac_secret envMixed.secret = .ok none)
    ∧ (envMixed.dns = some [privAddr, pubAddr])
    ∧ (dispatch sampleMsg envMixed).1 = .ok (classify_status 503)
    ∧ (classify_status 503 = .RetryableError ↔
        (503 = 429 ∨ 503 = 408 ∨ (500 ≤ 503 ∧ 503 ≤ 599))) :=
  ⟨rfl, rfl,
    (c2_status_to_outcome sampleMsg envMixed none httpUrl "example.com"
      [privAddr, pubAddr] pubAddr 503 201 rfl rfl rfl rfl (by decide) rfl rfl
      rfl).1,
    (c2_status_to_outcome sampleMsg envMixed none httpUrl "example.com"
      [privAddr, pubAddr] pubAddr 503 201 rfl rfl rfl rfl (by decide) rfl rfl
      rfl).2.2.1⟩

/-- Claim C1: if every resolved candidate is in the exclusion set, `dispatch`
returns `FatalError` and never issues an HTTP request; if at least one
candidate is not excluded, the pinned HTTP connection targets the first
non-excluded (public) candidate, even when excluded addresses are among the
candidates. -/
theorem c1_ssrf_filtering (msg : WebhookQueueMessage) (env : DispatchEnv)
    (sec : Option String) (u : UrlParts) (host : String) (addrs : List SockAddr)
    (st : Nat)
    (hsec : fetch_hmac_secret env.secret = .ok sec)
    (hurl : env.urlParse = some u) (hhost : u.host = some host)
    (hdns : env.dns = some addrs)
    (haud : env.audit = .resp st) :
    ((∀ a ∈ addrs, is_private_ip a.ip = true) →
       (dispatch msg env).1 = .ok .FatalError
       ∧ (dispatch msg env).2.httpTarget = none)
    ∧ (∀ target, addrs.find? (fun a => !(is_private_ip a.ip)) = some target →
        env.clientBuildOk = true →
        (dispatch msg env).2.httpTarget = some target
        ∧ is_private_ip target.ip = false)
    ∧ ((∃ a ∈ addrs, is_private_ip a.ip = false) →
        ∃ target, addrs.find? (fun a => !(is_private_ip a.ip)) = some target) := by
  refine ⟨?_, ?_, ?_⟩
  · intro hAll
    have hfind : addrs.find? (fun a => !(is_private_ip a.ip)) = none := by
      rw [List.find?_eq_none]
      intro a ha
      simp [hAll a ha]
    simp [dispatch, hsec, hurl, hhost, dispatch_with_host, hdns,
      dispatch_resolved, hfind, haud, logThen]
  · intro target hfind hbuild
    have hp : (!(is_private_ip target.ip)) = true :=
      @List.find?_some _ (fun a => !(is_private_ip a.ip)) target addrs hfind
    refine ⟨?_, by simpa using hp⟩
    simp [dispatch, hsec, hurl, hhost, dispatch_with_host, hdns,
      dispatch_resolved, hfind, hbuild]
  · intro hex
    have : (addrs.find? (fun a => !(is_private_ip a.ip))).isSome = true := by
      rw [List.find?_isSome]
      obtain ⟨a, ha, hpa⟩ := hex
      exact ⟨a, ha, by simp [hpa]⟩
    exact Option.isSome_iff_exists.mp this

/-- Witness for C1: with candidates `[10.0.0.5, 127.0.0.1]` dispatch returns
`FatalError` with no HTTP request; with candidates `[10.0.0.5, 93.184.216.34]`
the pinned connection targets the public `93.184.216.34`. -/
theorem c1_ssrf_filtering_witness :
    (∀ a ∈ [privAddr, loopbackAddr], is_private_ip a.ip = true)
    ∧ ((dispatch sampleMsg envBlocked).1 = .ok .FatalError
        ∧ (dispatch sampleMsg envBlocked).2.httpTarget = none)
    ∧ ([privAddr, pubAddr].find? (fun a => !(is_private_ip a.ip)) = some pubAddr)
    ∧ ((dispatch sampleMsg envMixed).2.httpTarget = some pubAddr
        ∧ is_private_ip pubAddr.ip = false) :=
  ⟨by decide,
    (c1_ssrf_filtering sampleMsg envBlocked none httpUrl "example.com"
      [privAddr, loopbackAddr] 201 rfl rfl rfl rfl rfl).1 (by decide),
    by decide,
    (c1_ssrf_filtering sampleMsg envMixed none httpUrl "example.com"
      [privAddr, pubAddr] 201 rfl rfl rfl rfl rfl).2.1 pubAddr (by decide) rfl⟩

/-- Counterexample to C6 as stated: for `https://example.com/hook`, which
specifies no port, DNS resolution is performed on `("example.com", 443)` — the
scheme's well-known port — not on port 80 as the claim requires. -/
theorem c6_port_default_counterexample :
    envHttpsNoPort.urlParse = some ⟨"https", some "example.com", none⟩
    ∧ (dispatch sampleMsg envHttpsNoPort).2.dnsQuery = some ("example.com", 443)
    ∧ (dispatch sampleMsg envHttpsNoPort).2.dnsQuery ≠ some ("example.com", 80) := by
  refine ⟨rfl, rfl, ?_⟩
  have hq : (dispatch sampleMsg envHttpsNoPort).2.dnsQuery =
      some ("example.com", 443) := rfl
  rw [hq]
  simp

/-- Claim C6 (amended): DNS resolution is performed on `(host, port)` where
`port` is the URL's explicit port, defaulting to the scheme's well-known port
(80 for http, 443 for https, 80/443 for ws/wss, 21 for ftp) when none is
specified, and to 80 only when the scheme has no well-known port; resolution
failure yields `FatalError`. -/
theorem c6_dns_pair_amended (msg : WebhookQueueMessage) (env : DispatchEnv)
    (sec : Option String) (u : UrlParts) (host : String) (st : Nat)
    (hsec : fetch_hmac_secret env.secret = .ok sec)
    (hurl : env.urlParse = some u) (hhost : u.host = some host)
    (haud : env.audit = .resp st) :
    (dispatch msg env).2.dnsQuery = some (host, u.port_or_known_default.getD 80)
    ∧ (env.dns = none → (dispatch msg env).1 = .ok .FatalError) := by
  constructor
  · cases hdns : env.dns with
    | none =>
        simp [dispatch, hsec, hurl, hhost, dispatch_with_host, hdns]
    | some addrs =>
        cases hfind : addrs.find? (fun a => !(is_private_ip a.ip)) with
        | none =>
            simp [dispatch, hsec, hurl, hhost, dispatch_with_host, hdns,
              dispatch_resolved, hfind]
        | some target =>
            cases hb : env.clientBuildOk with
            | false =>
                simp [dispatch, hsec, hurl, hhost, dispatch_with_host, hdns,
                  dispatch_resolved, hfind, hb]
            | true =>
                cases hs : env.send with
                | response s =>
                    by_cases h2 : 200 ≤ s ∧ s ≤ 299
                    · simp [dispatch, hsec, hurl, hhost, dispatch_with_host,
                        hdns, dispatch_resolved, hfind, hb, hs, h2]
                    · simp [dispatch, hsec, hurl, hhost, dispatch_with_host,
                        hdns, dispatch_resolved, hfind, hb, hs, h2]
                | transportErr c =>
                    simp [dispatch, hsec, hurl, hhost, dispatch_with_host,
                      hdns, dispatch_resolved, hfind, hb, hs]
  · intro hdns
    simp [dispatch, hsec, hurl, hhost, dispatch_with_host, hdns, haud, logThen]

/-- Witness for the amended C6: an https URL without an explicit port resolves
on port 443, and a DNS failure on the http URL yields `FatalError`. -/
theorem c6_dns_pair_amended_witness :
    (dispatch sampleMsg envHttpsNoPort).2.dnsQuery =
      some ("example.com", (httpsUrl.port_or_known_default).getD 80)
    ∧ ((dispatch sampleMsg
          ⟨.resp 200 (.json none), some httpUrl, none, true, .response 200,
            .resp 201⟩).1 = .ok .FatalError) :=
  ⟨(c6_dns_pair_amended sampleMsg envHttpsNoPort none httpsUrl "example.com"
      201 rfl rfl rfl rfl).1,
    (c6_dns_pair_amended sampleMsg
      ⟨.resp 200 (.json none), some httpUrl, none, true, .response 200,
        .resp 201⟩ none httpUrl "example.com" 201 rfl rfl rfl rfl).2 rfl⟩

/-- Counterexample to C4 as stated: on a delivery whose endpoint answers 200,
a transport-level failure of the audit insert (`.execute().await?` in
`log_webhook`) changes the returned value from `Ok(Success)` to an error —
the audit write is not fire-and-forget at the transport level. -/
theorem c4_audit_counterexample :
    (dispatch sampleMsg envOk200).1 = .ok .Success
    ∧ envAuditDead = ⟨envOk200.secret, envOk200.urlParse, envOk200.dns,
        envOk200.clientBuildOk, envOk200.send, .transportErr⟩
    ∧ (dispatch sampleMsg envAuditDead).1 = .error .auditErr :=
  ⟨rfl, rfl, rfl⟩

/-- Claim C4 (amended): a received audit-store response never changes the
outcome returned by `dispatch` — any response status, success or failure, is
at most logged and the outcome is identical; only a transport-level failure of
the audit insert escapes as an error through the surrounding try operator. -/
theorem c4_audit_resp_never_alters (msg : WebhookQueueMessage) (sec : StoreResp)
    (up : Option UrlParts) (dns : Option (List SockAddr)) (b : Bool)
    (send : SendOutcome) (s1 s2 : Nat) :
    (dispatch msg ⟨sec, up, dns, b, send, .resp s1⟩).1 =
      (dispatch msg ⟨sec, up, dns, b, send, .resp s2⟩).1 := by
  cases hf : fetch_hmac_secret sec with
  | error e => simp [dispatch, hf]
  | ok secv =>
      cases up with
      | none => simp [dispatch, hf, logThen]
      | some u =>
          cases hh : u.host with
          | none => simp [dispatch, hf, hh, logThen]
          | some host =>
              cases dns with
              | none =>
                  simp [dispatch, hf, hh, dispatch_with_host, logThen]
              | some addrs =>
                  cases hfind : addrs.find? (fun a => !(is_private_ip a.ip)) with
                  | none =>
                      simp [dispatch, hf, hh, dispatch_with_host,
                        dispatch_resolved, hfind, logThen]
                  | some target =>
                      cases b with
                      | false =>
                          simp [dispatch, hf, hh, dispatch_with_host,
                            dispatch_resolved, hfind]
                      | true =>
                          cases send with
                          | response s =>
                              by_cases h2 : 200 ≤ s ∧ s ≤ 299
                              · simp [dispatch, hf, hh, dispatch_with_host,
                                  dispatch_resolved, hfind, h2, logThen]
                              · simp [dispatch, hf, hh, dispatch_with_host,
                                  dispatch_resolved, hfind, h2, logThen]
                          | transportErr c =>
                              simp [dispatch, hf, hh, dispatch_with_host,
                                dispatch_resolved, hfind, logThen]

/-- Counterexample to C5 as stated: when the secret store answers with a
success status whose body is not valid JSON, `serde_json::from_str(..)?` makes
`fetch_hmac_secret` — and hence `dispatch` — return an error instead of
treating it as "no secret". -/
theorem c5_secret_counterexample :
    fetch_hmac_secret (.resp 200 .notJson) = .error .secretBodyErr
    ∧ (dispatch sampleMsg envSecretMalformed).1 = .error .secretBodyErr :=
  ⟨rfl, rfl⟩

/-- Claim C5 (amended): an absent secret (success response whose JSON lacks a
string `hmac_secret` field) and a non-success store response are treated as
"no secret" — the request proceeds unsigned and the outcome is the normal
response classification; but a transport error of the lookup, or a success
response whose body cannot be read or parsed as JSON, makes `dispatch` return
an error. -/
theorem c5_no_secret_best_effort (msg : WebhookQueueMessage) (env : DispatchEnv)
    (u : UrlParts) (host : String) (addrs : List SockAddr) (target : SockAddr)
    (s st : Nat)
    (hsec : fetch_hmac_secret env.secret = .ok none)
    (hurl : env.urlParse = some u) (hhost : u.host = some host)
    (hdns : env.dns = some addrs)
    (hfind : addrs.find? (fun a => !(is_private_ip a.ip)) = some target)
    (hbuild : env.clientBuildOk = true)
    (hsend : env.send = .response s)
    (haud : env.audit = .resp st) :
    (∀ stt, fetch_hmac_secret (.resp stt (.json none)) = .ok none)
    ∧ (∀ stt bd, ¬(200 ≤ stt ∧ stt ≤ 299) →
        fetch_hmac_secret (.resp stt bd) = .ok none)
    ∧ (fetch_hmac_secret .transportErr = .error .secretTransportErr)
    ∧ (dispatch msg env).2.sentHeaders = some (buildHeaders msg.headers none)
    ∧ (dispatch msg env).1 = .ok (classify_status s) := by
  refine ⟨?_, ?_, rfl, ?_, ?_⟩
  · intro stt
    by_cases h : 200 ≤ stt ∧ stt ≤ 299
    · simp [fetch_hmac_secret, h]
    · simp [fetch_hmac_secret, h]
  · intro stt bd h
    simp [fetch_hmac_secret, h]
  · simp [dispatch, hsec, hurl, hhost, dispatch_with_host, hdns,
      dispatch_resolved, hfind, hbuild, hsend]
  · simp only [dispatch, hsec, hurl, hhost, dispatch_with_host, hdns,
      dispatch_resolved, hfind, hbuild, hsend, haud, logThen, if_true,
      classify_status]
    by_cases h2 : 200 ≤ s ∧ s ≤ 299
    · simp [h2]
    · simp [h2]

/-- Witness for the amended C5: a 406 store response with an unreadable body
still lets the concrete dispatch deliver unsigned and classify the 200
response as `Success`. -/
theorem c5_no_secret_best_effort_witness :
    fetch_hmac_secret envSecret406.secret = .ok none
    ∧ (dispatch sampleMsg envSecret406).2.sentHeaders =
        some (buildHeaders sampleMsg.headers none)
    ∧ (dispatch sampleMsg envSecret406).1 = .ok (classify_status 200) :=
  ⟨rfl,
    (c5_no_secret_best_effort sampleMsg envSecret406 httpUrl "example.com"
      [pubAddr] pubAddr 200 201 rfl rfl rfl rfl (by decide) rfl rfl
      rfl).2.2.2.1,
    (c5_no_secret_best_effort sampleMsg envSecret406 httpUrl "example.com"
      [pubAddr] pubAddr 200 201 rfl rfl rfl rfl (by decide) rfl rfl
      rfl).2.2.2.2⟩

/-- Claim C3: for a message whose dispatch yields `RetryableError`: with
`retry_count < max_retries` (and the retry publish succeeding) exactly one
copy is published to the retry queue with `retry_count` incremented by exactly
1 and the original delivery is positively acknowledged; with
`retry_count ≥ max_retries` the message is acknowledged and discarded with
nothing republished. -/
theorem c3_retry_requeue (msg : WebhookQueueMessage) (env : DispatchEnv)
    (pubOk : Bool) (max_retries : Nat)
    (hdisp : (dispatch msg env).1 = .ok .RetryableError) :
    (msg.retry_count < max_retries → pubOk = true →
       process_message (some msg) env pubOk max_retries =
         (.ok (), [{ msg with retry_count := msg.retry_count + 1 }])
       ∧ (handle_result
           (.completed (process_message (some msg) env pubOk max_retries).1)).1 =
         .ack)
    ∧ (max_retries ≤ msg.retry_count →
       process_message (some msg) env pubOk max_retries = (.ok (), [])
       ∧ (handle_result
           (.completed (process_message (some msg) env pubOk max_retries).1)).1 =
         .ack) := by
  constructor
  · intro hlt hpub
    subst hpub
    simp [process_message, hdisp, hlt, handle_result]
  · intro hge
    have hnlt : ¬ msg.retry_count < max_retries := by omega
    simp [process_message, hdisp, hnlt, handle_result]

/-- Witness for C3: the concrete 503 delivery with `retry_count = 0` and
`max_retries = 3` republishes one copy with `retry_count = 1` and acks; the
same message with `retry_count = 3` is discarded with nothing republished. -/
theorem c3_retry_requeue_witness :
    (dispatch sampleMsg envMixed).1 = .ok .RetryableError
    ∧ (process_message (some sampleMsg) envMixed true 3 =
        (.ok (), [{ sampleMsg with retry_count := sampleMsg.retry_count + 1 }]))
    ∧ (process_message (some { sampleMsg with retry_count := 3 }) envMixed true 3 =
        (.ok (), [])) :=
  ⟨rfl,
    ((c3_retry_requeue sampleMsg envMixed true 3 rfl).1 (by decide) rfl).1,
    ((c3_retry_requeue { sampleMsg with retry_count := 3 } envMixed true 3
      rfl).2 (by decide)).1⟩

/-- Claim C7: a queue body that fails to deserialize is treated as `Success`
for acknowledgment purposes — `process_message` returns `Ok` with nothing
republished, the delivery is positively acknowledged, and `handle_result`
returns `Ok` on every possible task result, so the consumer loop never fails
because of it. -/
theorem c7_malformed_discarded (env : DispatchEnv) (pubOk : Bool)
    (max_retries : Nat) :
    process_message none env pubOk max_retries = (.ok (), [])
    ∧ (handle_result
        (.completed (process_message none env pubOk max_retries).1)).1 = .ack
    ∧ (∀ j, (handle_result j).2 = .ok ()) := by
  refine ⟨rfl, rfl, ?_⟩
  intro j
  cases j with
  | panicked => rfl
  | completed r => cases r <;> rfl

/-- Helper: from any starting pool within the bound, every pool size the
select loop passes through stays within the bound. -/
theorem pool_trace_le (max : Nat) (events : List ConsumerEvent) :
    ∀ pool, pool ≤ max → ∀ q ∈ pool_trace max events pool, q ≤ max := by
  induction events with
  | nil =>
      intro pool h q hq
      simp [pool_trace] at hq
      omega
  | cons e rest ih =>
      intro pool h q hq
      cases e with
      | shutdown =>
          simp [pool_trace] at hq
          omega
      | streamErr =>
          by_cases hp : pool < max
          · simp [pool_trace, hp] at hq
            omega
          · simp [pool_trace, hp] at hq
            rcases hq with hq | hq
            · omega
            · exact ih pool h q hq
      | streamEnd =>
          by_cases hp : pool < max
          · simp [pool_trace, hp] at hq
            omega
          · simp [pool_trace, hp] at hq
            rcases hq with hq | hq
            · omega
            · exact ih pool h q hq
      | taskDone j =>
          simp [pool_trace] at hq
          rcases hq with hq | hq
          · omega
          · refine ih _ ?_ q hq
            simp [step_pool]
            split
            · omega
            · omega
      | newDelivery =>
          simp [pool_trace] at hq
          rcases hq with hq | hq
          · omega
          · refine ih _ ?_ q hq
            simp [step_pool]
            split
            · omega
            · omega

/-- Claim C8: at every point of the consumer's main loop the number of
in-flight dispatch tasks never exceeds the configured prefetch/concurrency
limit, and a new delivery is accepted and spawned only while the pool size is
strictly below that limit. -/
theorem c8_concurrency_bound (max : Nat) :
    (∀ events, ∀ q ∈ pool_trace max events 0, q ≤ max)
    ∧ (∀ pool, ¬ pool < max → step_pool max pool .newDelivery = pool)
    ∧ (∀ pool, pool < max → step_pool max pool .newDelivery = pool + 1) := by
  refine ⟨?_, ?_, ?_⟩
  · intro events q hq
    exact pool_trace_le max events 0 (Nat.zero_le max) q hq
  · intro pool hp
    simp [step_pool, hp]
  · intro pool hp
    simp [step_pool, hp]

/-- Witness for C8: with limit 2, a script that offers three deliveries keeps
the pool at never more than 2 — the third delivery is not accepted while the
pool is full. -/
theorem c8_concurrency_bound_witness :
    (2 ∈ pool_trace 2
        [.newDelivery, .newDelivery, .newDelivery, .taskDone .panicked,
          .streamEnd] 0)
    ∧ (2 ≤ 2) ∧ (¬ 2 < 2) ∧ step_pool 2 2 .newDelivery = 2 :=
  ⟨by decide,
    (c8_concurrency_bound 2).1
      [.newDelivery, .newDelivery, .newDelivery, .taskDone .panicked,
        .streamEnd] 2 (by decide),
    by decide,
    (c8_concurrency_bound 2).2.1 2 (by decide)⟩

/-- Helper: draining the remaining tasks never produces an error, because
`handle_result` returns `Ok` on every branch. -/
theorem drain_results_ok (rs : List JoinedResult) : drain_results rs = .ok () := by
  have key : ∀ acc : Except ConsumerErr Unit, acc = .ok () →
      rs.foldl
        (fun acc r =>
          match acc with
          | .error e => .error e
          | .ok _ => (handle_result r).2)
        acc = .ok () := by
    induction rs with
    | nil => intro acc h; simpa using h
    | cons r rest ih =>
        intro acc h
        subst h
        simp only [List.foldl_cons]
        refine ih _ ?_
        cases r with
        | panicked => rfl
        | completed pr => cases pr <;> rfl
  exact key (.ok ()) rfl

/-- Claim C10: when the broker delivery stream ends without a shutdown signal,
the consumer exits its accept loop, drains all in-flight tasks and returns
`Ok`; the supervisor `run` treats that `Ok` as a clean exit and returns
without reconnecting, even though shutdown was never requested. -/
theorem c10_stream_end_clean_exit (max : Nat) (events : List ConsumerEvent)
    (pending : List JoinedResult) (p : Nat)
    (hloop : consumer_loop max events 0 = .streamEndBreak p) :
    run_inner true max events pending = some (.ok ())
    ∧ run [((Except.ok ()), false)] = some (.cleanExit, 0) := by
  constructor
  · simp [run_inner, hloop, drain_results_ok]
  · rfl

/-- Witness for C10: the script in which the stream immediately ends, with two
in-flight tasks left to drain. -/
theorem c10_stream_end_clean_exit_witness :
    consumer_loop 1 [.streamEnd] 0 = .streamEndBreak 0
    ∧ run_inner true 1 [.streamEnd] [.panicked, .completed (.ok ())] =
        some (.ok ()) :=
  ⟨rfl,
    (c10_stream_end_clean_exit 1 [.streamEnd]
      [.panicked, .completed (.ok ())] 0 rfl).1⟩

end Firecrawl
